import Mathlib

/-
Verification of the protocol-synchronization core of airzone-mqtt-hass
(`airzone.py`, `device.py`, `system.py`, `zone.py`) against its design
specification. The Python code is shallowly embedded: decoded JSON payload
dictionaries become structures of `Option` fields, object state becomes
explicit state passing, and the asyncio control flow of the poll path is
modelled as a deterministic step function parameterised by the environment
(whether and which response arrives before the timeout).

Times (`datetime` values, `timedelta` values, epoch timestamps) are modelled
as exact rationals counted in seconds; no claim depends on binary
floating-point rounding or on calendar formatting.
-/

set_option linter.unusedVariables false

namespace AirzoneMqtt

/-- JSON-like scalar value as found in a decoded MQTT payload dict.
Python floats are modelled as exact rationals. -/
inductive JVal where
| jBool (b : Bool)
| jInt (n : Int)
| jRat (q : ℚ)
| jStr (s : String)
deriving DecidableEq

/-- Python truthiness, as applied by `bool(x)` in `zone.py` / `device.py`. -/
def pyBool : JVal → Bool
| .jBool b => b
| .jInt n => n != 0
| .jRat q => q != 0
| .jStr s => s != ""

/-- Truncation of a rational toward zero, as Python `int()` does on floats. -/
def ratTrunc (q : ℚ) : Int :=
if 0 ≤ q then ⌊q⌋ else -⌊-q⌋

/-- Python `int(x)` on a JSON scalar. On a non-numeric string Python raises
`ValueError`; no claim exercises that case and it is mapped to `0` here. -/
def pyInt : JVal → Int
| .jBool b => if b then 1 else 0
| .jInt n => n
| .jRat q => ratTrunc q
| .jStr _ => 0

/-- Python `float(x)` on a JSON scalar. On a non-numeric string Python raises
`ValueError`; no claim exercises that case and it is mapped to `0` here. -/
def pyFloat : JVal → ℚ
| .jBool b => if b then 1 else 0
| .jInt n => (n : ℚ)
| .jRat q => q
| .jStr _ => 0

/-- Python `str(x)` / f-string formatting of a JSON scalar. Formatting of a
float is approximated by the rational's `toString`; no claim compares the
textual form of a float id. -/
def pyStr : JVal → String
| .jBool b => if b then "True" else "False"
| .jInt n => toString n
| .jRat q => toString q
| .jStr s => s

/-- Python `str(data.get(key))`: a missing key yields `None`, and
`str(None) = "None"`. Used by `Device.__init__` (`device.py`). -/
def pyStrOpt : Option JVal → String
| none => "None"
| some v => pyStr v

/-- HVAC mode enum `AZ_Mode` from `common.py`, with the explicit `UNKNOWN`
sentinel returned by `_missing_` for every unrecognized value. -/
inductive AZ_Mode where
| UNKNOWN
| STOP
| AUTO
| COOLING
| HEATING
| VENTILATION
| DRY
| EMERGENCY_HEAT
| HEAT_AIR
| HEAT_RADIANT
| HEAT_COMBINED
| COOL_AIR
| COOL_RADIANT
| COOL_COMBINED
| BYPASS
| RECOVERY
| REGULATION_TEMP
| PURIFICATION
| FAN_PURIFICATION
| FAN_ENERGY
deriving DecidableEq

/-- Numeric value of each `AZ_Mode` member (`common.py`). -/
def AZ_Mode.val : AZ_Mode → Int
| .UNKNOWN => -1
| .STOP => 0
| .AUTO => 1
| .COOLING => 2
| .HEATING => 3
| .VENTILATION => 4
| .DRY => 5
| .EMERGENCY_HEAT => 6
| .HEAT_AIR => 7
| .HEAT_RADIANT => 8
| .HEAT_COMBINED => 9
| .COOL_AIR => 10
| .COOL_RADIANT => 11
| .COOL_COMBINED => 12
| .BYPASS => 13
| .RECOVERY => 14
| .REGULATION_TEMP => 15
| .PURIFICATION => 16
| .FAN_PURIFICATION => 17
| .FAN_ENERGY => 18

/-- Value lookup `AZ_Mode(n)` for an integer value; unrecognized values fall
through to `_missing_`, which returns `UNKNOWN` (`common.py`). -/
def AZ_Mode.ofInt (n : Int) : AZ_Mode :=
if n = -1 then .UNKNOWN
else if n = 0 then .STOP
else if n = 1 then .AUTO
else if n = 2 then .COOLING
else if n = 3 then .HEATING
else if n = 4 then .VENTILATION
else if n = 5 then .DRY
else if n = 6 then .EMERGENCY_HEAT
else if n = 7 then .HEAT_AIR
else if n = 8 then .HEAT_RADIANT
else if n = 9 then .HEAT_COMBINED
else if n = 10 then .COOL_AIR
else if n = 11 then .COOL_RADIANT
else if n = 12 then .COOL_COMBINED
else if n = 13 then .BYPASS
else if n = 14 then .RECOVERY
else if n = 15 then .REGULATION_TEMP
else if n = 16 then .PURIFICATION
else if n = 17 then .FAN_PURIFICATION
else if n = 18 then .FAN_ENERGY
else .UNKNOWN

/-- Coercion `AZ_Mode(raw)` for a raw JSON scalar: Python enum value lookup
compares by numeric equality (so `True == 1` and `3.0 == 3` hit members);
everything else goes through `_missing_` to `UNKNOWN`. -/
def AZ_Mode.ofJVal : JVal → AZ_Mode
| .jBool b => .ofInt (if b then 1 else 0)
| .jInt n => .ofInt n
| .jRat q => if q.den = 1 then .ofInt q.num else .UNKNOWN
| .jStr _ => .UNKNOWN

/-- Temperature unit enum `AZ_TemperatureUnit` from `common.py`. The enum has
no `_missing_`, so `AZ_TemperatureUnit(v)` on an unrecognized value raises
`ValueError` in Python; that case is modelled by the extra `invalid`
constructor and is exercised by no claim. -/
inductive AZ_TemperatureUnit where
| CELSIUS
| FAHRENHEIT
| invalid
deriving DecidableEq

/-- Numeric value of each valid `AZ_TemperatureUnit` member. -/
def AZ_TemperatureUnit.val : AZ_TemperatureUnit → Int
| .CELSIUS => 0
| .FAHRENHEIT => 1
| .invalid => -1

/-- Value lookup `AZ_TemperatureUnit(raw)` with numeric equality, as for
`AZ_Mode.ofJVal`. -/
def AZ_TemperatureUnit.ofJVal : JVal → AZ_TemperatureUnit
| .jBool b => if b then .FAHRENHEIT else .CELSIUS
| .jInt n => if n = 0 then .CELSIUS else if n = 1 then .FAHRENHEIT else .invalid
| .jRat q =>
  if q = 0 then .CELSIUS else if q = 1 then .FAHRENHEIT else .invalid
| .jStr _ => .invalid

/-- Update type enum. Modelled from the spec: the `update` module is not in
the provided sources; the spec distinguishes full-snapshot merges from
partial-delta merges (§3), which is exactly the role of
`UpdateType.FULL` / `UpdateType.PARTIAL` at the call sites in `airzone.py`.
The value only selects debug logging inside the update methods. -/
inductive UpdateType where
| FULL
| PARTIAL
deriving DecidableEq

/-- The `range_sp` sub-dict of a parameters dict (`zone.py`): optional
`max` / `min` bounds. -/
structure RangeSP where
  max : Option JVal := none
  min : Option JVal := none
deriving DecidableEq

/-- The `parameters` sub-dict of a device payload. Each key that the code
reads becomes an `Option` field; an absent key is `none`. Keys the code
never reads are irrelevant to the state and are not modelled. -/
structure Params where
  air_active : Option JVal := none
  humidity : Option JVal := none
  is_connected : Option JVal := none
  mode : Option JVal := none
  mode_available : Option (List JVal) := none
  name : Option JVal := none
  power : Option JVal := none
  rad_active : Option JVal := none
  range_sp : Option RangeSP := none
  setpoint : Option JVal := none
  step : Option JVal := none
  zone_work_temp : Option JVal := none
deriving DecidableEq

/-- The `meta` sub-dict of a device payload (`device.py` reads `units`). -/
structure Meta where
  units : Option JVal := none
deriving DecidableEq

/-- One device dict: either an entry of a full-snapshot `devices` list or the
`body` of an event message. Carries the identity keys plus the `meta` and
`parameters` sub-dicts (`dict.get(key, {})` makes an absent sub-dict an
empty one, hence plain fields with empty defaults). -/
structure DevMsg where
  device_id : Option JVal := none
  device_type : Option JVal := none
  system_id : Option JVal := none
  meta : Meta := {}
  parameters : Params := {}
deriving DecidableEq

/-- The `headers` dict of a request/response envelope. Only the fields the
embedded code reads are modelled. -/
structure Headers where
  req_id : Option JVal := none
  ts : Option JVal := none
deriving DecidableEq

/-- The `body` of a message: for event messages the device fields, for
get_status responses the `devices` inventory list (absent list defaults to
`[]`, mirroring `body.get(API_DEVICES, [])`). -/
structure MsgBody extends DevMsg where
  devices : List DevMsg := []
deriving DecidableEq

/-- A decoded inbound/outbound message payload
(`{headers: ..., body: ...}`). `body` may be absent or `null`
(`data.get(API_BODY, {})` then yields an empty dict). -/
structure Msg where
  headers : Headers := {}
  body : Option MsgBody := none
  online : Option JVal := none
deriving DecidableEq

/-- Manufacturer string `AZ_MANUFACTURER`. Modelled from the spec: the
`const` module is not in the provided sources ("manufacturer (fixed)", §3);
the exact text is opaque and no claim reads it. -/
def AZ_MANUFACTURER : String := "Airzone"

/-- Model string `AZ_MODEL_SYSTEM`. Modelled from the spec: the `const`
module is not in the provided sources; opaque, read by no claim. -/
def AZ_MODEL_SYSTEM : String := "System"

/-- Model string `AZ_MODEL_ZONE`. Modelled from the spec: the `const`
module is not in the provided sources; opaque, read by no claim. -/
def AZ_MODEL_ZONE : String := "Zone"

/-- Device-type tag for system entries, `API_AZ_SYSTEM`. Modelled from the
spec: the `const` module is not in the provided sources; the claims only
need it distinct from the zone tag. -/
def API_AZ_SYSTEM : String := "az_system"

/-- Device-type tag for zone entries, `API_AZ_ZONE`. Modelled from the
spec: the `const` module is not in the provided sources. -/
def API_AZ_ZONE : String := "az_zone"

/-- Command name `API_AZ_GET_STATUS`. Modelled from the spec: the `const`
module is not in the provided sources; it contains a `.` so that
`api_safe_str` (which maps `.` to `_`) is non-trivial, matching the
`response/<safeCommandName>` taxonomy of §6. -/
def API_AZ_GET_STATUS : String := "az.get_status"

/-- Topic segment `AMT_EVENTS`. Modelled from the spec (§6 topic taxonomy):
the `const` module is not in the provided sources. -/
def AMT_EVENTS : String := "events"

/-- Topic segment `AMT_STATUS`. Modelled from the spec (§6): the `const`
module is not in the provided sources. -/
def AMT_STATUS : String := "status"

/-- Topic segment `AMT_RESPONSE`. Modelled from the spec (§6): the `const`
module is not in the provided sources. -/
def AMT_RESPONSE : String := "response"

/-- Topic segment `AMT_INVOKE`. Modelled from the spec (§6): the `const`
module is not in the provided sources. -/
def AMT_INVOKE : String := "invoke"

/-- Topic segment `AMT_ONLINE`. Modelled from the spec (§6): the `const`
module is not in the provided sources. -/
def AMT_ONLINE : String := "online"

/-- The merge step for one field of a device: Python
`v = d.get(key)` followed by `if v is not None: self.x = conv(v)` becomes
`fieldMerge (d.key) conv (self.x)`. -/
def fieldMerge (raw : Option α) (conv : α → β) (cur : β) : β :=
match raw with
| none => cur
| some v => conv v

/-- Python `bool(x)` on an optional stored bool: `bool(None) = False`. -/
def pyBoolOpt : Option Bool → Bool
| none => false
| some b => b

/-- Characters kept verbatim by `Device.get_id_ha` — the class
`[0-9a-zA-Z_-]` of the regex in `device.py`. -/
def haSafeChar (c : Char) : Bool :=
c.isAlphanum || c == '_' || c == '-'

/-- Regex substitution `re.sub("[^0-9a-zA-Z_-]+", "_", s)`: every maximal
run of disallowed characters collapses to a single underscore. The Boolean
argument records whether the previous character was part of such a run. -/
def haSafeAux : List Char → Bool → List Char
| [], _ => []
| c :: cs, inRun =>
  if haSafeChar c then c :: haSafeAux cs false
  else if inRun then haSafeAux cs true
  else '_' :: haSafeAux cs true

/-- Shared device state (`device.py`). `model`, `name` and `mqtt_topic` are
declared on the class and filled in by the concrete variants. -/
structure Device where
  device_id : String
  is_connected : Bool := false
  manufacturer : String := AZ_MANUFACTURER
  system_id : String
  units : AZ_TemperatureUnit := .CELSIUS
  model : String := ""
  name : String := ""
  mqtt_topic : String := ""
deriving DecidableEq

/-- Device construction `Device.__init__` (`device.py`): the identity keys
are read from the payload dict through `str(...)`. -/
def Device.init (data : DevMsg) : Device :=
{ device_id := pyStrOpt data.device_id
  system_id := pyStrOpt data.system_id }

/-- Composite identity `Device.get_id` (`device.py`):
`f"{system_id}:{device_id}"`. -/
def Device.get_id (d : Device) : String :=
d.system_id ++ ":" ++ d.device_id

/-- Sanitised identity `Device.get_id_ha` (`device.py`). -/
def Device.get_id_ha (d : Device) : String :=
String.mk (haSafeAux d.get_id.data false)

/-- Shared merge `Device.update` (`device.py`): overwrite `is_connected`
from `parameters` and `units` from `meta` when present. The update type
only selects debug logging. -/
def Device.update (d : Device) (data : DevMsg) (ut : UpdateType) : Device :=
{ d with
  is_connected := fieldMerge data.parameters.is_connected pyBool d.is_connected
  units := fieldMerge data.meta.units AZ_TemperatureUnit.ofJVal d.units }

/-- System device (`system.py`): no fields beyond the shared ones. -/
structure System extends Device
deriving DecidableEq

/-- System construction `System.__init__` (`system.py`). -/
def System.init (data : DevMsg) : System :=
let d := Device.init data
{ toDevice := { d with model := AZ_MODEL_SYSTEM, name := "System [" ++ d.get_id ++ "]" } }

/-- System merge `System.update` (`system.py`): just the shared merge. -/
def System.update (s : System) (data : DevMsg) (ut : UpdateType) : System :=
{ s with toDevice := s.toDevice.update data ut }

/-- System topic assignment `System.set_mqtt_topic` (`system.py`). -/
def System.set_mqtt_topic (s : System) (pfx : String) : System :=
{ s with mqtt_topic := pfx ++ "/system/" ++ s.toDevice.get_id_ha }

/-- Zone device (`zone.py`): shared fields plus the zone attributes. -/
structure Zone extends Device where
  air_active : Option Bool := none
  humidity : Option Int := none
  mode : Option AZ_Mode := none
  mode_available : List AZ_Mode := []
  power : Option Bool := none
  rad_active : Option Bool := none
  setpoint : Option ℚ := none
  setpoint_max : Option ℚ := none
  setpoint_min : Option ℚ := none
  step : Option ℚ := none
  zone_work_temp : Option ℚ := none
deriving DecidableEq

/-- Zone construction `Zone.__init__` (`zone.py`): every zone attribute
starts unset (`None` / empty list). -/
def Zone.init (data : DevMsg) : Zone :=
let d := Device.init data
{ toDevice := { d with model := AZ_MODEL_ZONE, name := "Zone [" ++ d.get_id ++ "]" } }

/-- Zone merge `Zone.update` (`zone.py`): first the shared merge
(`super().update`), then a field-level overwrite for every parameter key
present in the delta; absent keys leave the stored value. `range_sp` is an
optional sub-dict defaulting to empty. -/
def Zone.update (z : Zone) (data : DevMsg) (ut : UpdateType) : Zone :=
let z1 : Zone := { z with toDevice := z.toDevice.update data ut }
let p := data.parameters
let range_sp := p.range_sp.getD {}
{ z1 with
  air_active := fieldMerge p.air_active (fun v => some (pyBool v)) z1.air_active
  humidity := fieldMerge p.humidity (fun v => some (pyInt v)) z1.humidity
  mode := fieldMerge p.mode (fun v => some (AZ_Mode.ofJVal v)) z1.mode
  mode_available :=
    fieldMerge p.mode_available (fun l => l.map AZ_Mode.ofJVal) z1.mode_available
  name := fieldMerge p.name pyStr z1.name
  power := fieldMerge p.power (fun v => some (pyBool v)) z1.power
  rad_active := fieldMerge p.rad_active (fun v => some (pyBool v)) z1.rad_active
  setpoint_max := fieldMerge range_sp.max (fun v => some (pyFloat v)) z1.setpoint_max
  setpoint_min := fieldMerge range_sp.min (fun v => some (pyFloat v)) z1.setpoint_min
  setpoint := fieldMerge p.setpoint (fun v => some (pyFloat v)) z1.setpoint
  step := fieldMerge p.step (fun v => some (pyFloat v)) z1.step
  zone_work_temp :=
    fieldMerge p.zone_work_temp (fun v => some (pyFloat v)) z1.zone_work_temp }

/-- Zone topic assignment `Zone.set_mqtt_topic` (`zone.py`). -/
def Zone.set_mqtt_topic (z : Zone) (pfx : String) : Zone :=
{ z with mqtt_topic := pfx ++ "/zone/" ++ z.toDevice.get_id_ha }

/-- Derived activity flag `Zone.get_active` (`zone.py`):
`bool(self.air_active) or bool(self.rad_active)`. -/
def Zone.get_active (z : Zone) : Bool :=
pyBoolOpt z.air_active || pyBoolOpt z.rad_active

/-- Rounding of a rational to the nearest integer, ties to even, as Python
`round()` does (binary-float representation artifacts are not modelled). -/
def roundHalfEven (q : ℚ) : Int :=
if q - ⌊q⌋ < 1/2 then ⌊q⌋
else if 1/2 < q - ⌊q⌋ then ⌊q⌋ + 1
else if Even ⌊q⌋ then ⌊q⌋ else ⌊q⌋ + 1

/-- Python `round(x, 1)`: round to one decimal place, ties to even. -/
def round1 (q : ℚ) : ℚ :=
(roundHalfEven (q * 10) : ℚ) / 10

/-- Getter `Zone.get_air_active` (`zone.py`). -/
def Zone.get_air_active (z : Zone) : Option Bool :=
z.air_active

/-- Getter `Zone.get_humidity` (`zone.py`). -/
def Zone.get_humidity (z : Zone) : Option Int :=
z.humidity

/-- Getter `Zone.get_mode` (`zone.py`): the numeric enum value, if set. -/
def Zone.get_mode (z : Zone) : Option Int :=
z.mode.map AZ_Mode.val

/-- Getter `Zone.get_mode_available` (`zone.py`): the numeric values, or
`None` when the list is empty. -/
def Zone.get_mode_available (z : Zone) : Option (List Int) :=
let l := z.mode_available.map AZ_Mode.val
if l.length > 0 then some l else none

/-- Getter `Zone.get_power` (`zone.py`). -/
def Zone.get_power (z : Zone) : Option Bool :=
z.power

/-- Getter `Zone.get_rad_active` (`zone.py`). -/
def Zone.get_rad_active (z : Zone) : Option Bool :=
z.rad_active

/-- Getter `Zone.get_setpoint` (`zone.py`): rounded to one decimal. -/
def Zone.get_setpoint (z : Zone) : Option ℚ :=
z.setpoint.map round1

/-- Getter `Zone.get_setpoint_max` (`zone.py`). -/
def Zone.get_setpoint_max (z : Zone) : Option ℚ :=
z.setpoint_max.map round1

/-- Getter `Zone.get_setpoint_min` (`zone.py`). -/
def Zone.get_setpoint_min (z : Zone) : Option ℚ :=
z.setpoint_min.map round1

/-- Getter `Zone.get_step` (`zone.py`). -/
def Zone.get_step (z : Zone) : Option ℚ :=
z.step.map round1

/-- Getter `Zone.get_zone_work_temp` (`zone.py`). -/
def Zone.get_zone_work_temp (z : Zone) : Option ℚ :=
z.zone_work_temp.map round1

/-- JSON value in an outbound state projection dict. -/
inductive DVal where
| dBool (b : Bool)
| dInt (n : Int)
| dRat (q : ℚ)
| dStr (s : String)
| dIntList (l : List Int)
deriving DecidableEq

/-- Projection keys `AZD_*`. Modelled from the spec: the `const` module is
not in the provided sources; the claims only need the keys pairwise
distinct, which these plain names are. -/
def AZD_DEVICE_ID : String := "device_id"

/-- Projection key, see `AZD_DEVICE_ID`. -/
def AZD_ID : String := "id"

/-- Projection key, see `AZD_DEVICE_ID`. -/
def AZD_IS_CONNECTED : String := "is_connected"

/-- Projection key, see `AZD_DEVICE_ID`. -/
def AZD_SYSTEM_ID : String := "system_id"

/-- Projection key, see `AZD_DEVICE_ID`. -/
def AZD_UNITS : String := "units"

/-- Projection key, see `AZD_DEVICE_ID`. -/
def AZD_ACTIVE : String := "active"

/-- Projection key, see `AZD_DEVICE_ID`. -/
def AZD_AIR_ACTIVE : String := "air_active"

/-- Projection key, see `AZD_DEVICE_ID`. -/
def AZD_HUMIDITY : String := "humidity"

/-- Projection key, see `AZD_DEVICE_ID`. -/
def AZD_MODE : String := "mode"

/-- Projection key, see `AZD_DEVICE_ID`. -/
def AZD_MODE_AVAILABLE : String := "mode_available"

/-- Projection key, see `AZD_DEVICE_ID`. -/
def AZD_NAME : String := "name"

/-- Projection key, see `AZD_DEVICE_ID`. -/
def AZD_POWER : String := "power"

/-- Projection key, see `AZD_DEVICE_ID`. -/
def AZD_SETPOINT : String := "setpoint"

/-- Projection key, see `AZD_DEVICE_ID`. -/
def AZD_SETPOINT_MAX : String := "setpoint_max"

/-- Projection key, see `AZD_DEVICE_ID`. -/
def AZD_SETPOINT_MIN : String := "setpoint_min"

/-- Projection key, see `AZD_DEVICE_ID`. -/
def AZD_RAD_ACTIVE : String := "rad_active"

/-- Projection key, see `AZD_DEVICE_ID`. -/
def AZD_STEP : String := "step"

/-- Projection key, see `AZD_DEVICE_ID`. -/
def AZD_ZONE_WORK_TEMP : String := "zone_work_temp"

/-- Conditional dict entry: Python `if v is not None: data[k] = v`. An
insertion-ordered dict with distinct keys is modelled as an association
list. -/
def optEntry (k : String) (v : Option DVal) : List (String × DVal) :=
match v with
| none => []
| some x => [(k, x)]

/-- Dict lookup on an association list (first match). -/
def alGet : List (String × α) → String → Option α
| [], _ => none
| (k, v) :: t, key => if k = key then some v else alGet t key

/-- Dict value replacement at an existing key (Python mutates the object
stored in the dict in place; keys are unique). -/
def alSet : List (String × α) → String → α → List (String × α)
| [], _, _ => []
| (k, v) :: t, key, x => if k = key then (k, x) :: t else (k, v) :: alSet t key x

/-- Shared projection `Device.data` (`device.py`). The `units` enum is
serialized as its numeric value. -/
def Device.data (d : Device) : List (String × DVal) :=
[(AZD_DEVICE_ID, .dStr d.device_id),
 (AZD_ID, .dStr d.get_id),
 (AZD_IS_CONNECTED, .dBool d.is_connected),
 (AZD_SYSTEM_ID, .dStr d.system_id),
 (AZD_UNITS, .dInt d.units.val)]

/-- System projection `System.data` (`system.py`): just the shared data. -/
def System.data (s : System) : List (String × DVal) :=
s.toDevice.data

/-- Zone projection `Zone.data` (`zone.py`): the shared data, then the
unconditional `active` flag, then one conditional entry per optional getter
(`name` is a plain string and is always present). -/
def Zone.data (z : Zone) : List (String × DVal) :=
z.toDevice.data
++ [(AZD_ACTIVE, .dBool z.get_active)]
++ optEntry AZD_AIR_ACTIVE (z.get_air_active.map .dBool)
++ optEntry AZD_HUMIDITY (z.get_humidity.map .dInt)
++ optEntry AZD_MODE (z.get_mode.map .dInt)
++ optEntry AZD_MODE_AVAILABLE (z.get_mode_available.map .dIntList)
++ [(AZD_NAME, .dStr z.name)]
++ optEntry AZD_POWER (z.get_power.map .dBool)
++ optEntry AZD_RAD_ACTIVE (z.get_rad_active.map .dBool)
++ optEntry AZD_SETPOINT (z.get_setpoint.map .dRat)
++ optEntry AZD_SETPOINT_MAX (z.get_setpoint_max.map .dRat)
++ optEntry AZD_SETPOINT_MIN (z.get_setpoint_min.map .dRat)
++ optEntry AZD_STEP (z.get_step.map .dRat)
++ optEntry AZD_ZONE_WORK_TEMP (z.get_zone_work_temp.map .dRat)

/-- Protocol version segment `AMT_V1`. Modelled from the spec (§6
`<gatewayTopic>/<protocolVersion>`): the `const` module is not in the
provided sources. -/
def AMT_V1 : String := "v1"

/-- State of one `Airzone` instance (`airzone.py`). `asyncio.Event`s are
modelled by their set/unset flag, the `asyncio.Lock` by whether it is held;
`update_dt` is the freshness timestamp in epoch seconds. `published`
records the topics of all `mqtt_publish` calls made so far (payload content
is read by no claim). -/
structure Airzone where
  api_init : Bool := false
  api_init_event : Bool := false
  api_resp : Bool := false
  api_req_id : String := ""
  api_raw_status : Option Msg := none
  api_lock : Bool := false
  online : Bool := false
  online_event : Bool := false
  poll_timeout : ℚ := 900
  scan_interval : ℚ := 60
  topic_airzone : String := "airzone"
  topic_interface : String := "airzone-mqtt-hass"
  systems : List (String × System) := []
  zones : List (String × Zone) := []
  update_dt : Option ℚ := none
  published : List String := []
deriving DecidableEq

/-- Topic namespace `self.mqtt_prefix` from `Airzone.__init__`
(`f"{config.topic_airzone}/{AMT_V1}"`; the source attribute name itself
cannot be used as a Lean field name here). -/
def Airzone.mqtt_pfx (s : Airzone) : String :=
s.topic_airzone ++ "/" ++ AMT_V1

/-- Safe-string mapping `Airzone.api_safe_str` (`airzone.py`): every `.`
becomes `_`. -/
def api_safe_str (t : String) : String :=
String.mk (t.data.map (fun c => if c == '.' then '_' else c))

/-- Snapshot application `Airzone.api_az_get_status` (`airzone.py`): store
the raw payload, walk the `devices` inventory classifying each entry by its
declared `device_type` (a fresh `System` / `Zone` is constructed and the
entry applied to that fresh object; it is stored only if its composite key
is not yet present — an already-present key leaves the stored instance as
it was and drops the fresh object), mark the API initialized once, and
stamp the freshness clock with the current time. This definition is the
body of the per-entry loop, hoisted so the fold can be reasoned about. -/
def Airzone.snapshot_step (pfx : String) (st : Airzone) (device : DevMsg) : Airzone :=
match device.device_type with
| some (.jStr t) =>
  if t = API_AZ_SYSTEM then
    let system := ((System.init device).update device .FULL).set_mqtt_topic pfx
    let system_id := system.toDevice.get_id
    if (alGet st.systems system_id).isNone then
      { st with systems := st.systems ++ [(system_id, system)] }
    else st
  else if t = API_AZ_ZONE then
    let zone := ((Zone.init device).update device .FULL).set_mqtt_topic pfx
    let zone_id := zone.toDevice.get_id
    if (alGet st.zones zone_id).isNone then
      { st with zones := st.zones ++ [(zone_id, zone)] }
    else st
  else st
| _ => st

/-- Snapshot application, continued from the doc comment above: the body of
the per-entry loop is `Airzone.snapshot_step`. -/
def Airzone.api_az_get_status (s : Airzone) (now : ℚ) (data : Msg) : Airzone :=
let body := data.body.getD {}
let devices := body.devices
let pfx := s.topic_interface ++ "/" ++ s.topic_airzone
let s1 := { s with api_raw_status := some data }
let s2 := devices.foldl (Airzone.snapshot_step pfx) s1
let s3 := if !s2.api_init then { s2 with api_init := true, api_init_event := true } else s2
{ s3 with update_dt := some now }

/-- Freshness stamp `Airzone.update_callback` (`airzone.py`): use the
headers timestamp of the given payload when present, else the current
time. The registered publish callback performs no state change on this
object and is not modelled. -/
def Airzone.update_callback (s : Airzone) (now : ℚ) (data : Msg) : Airzone :=
match data.headers.ts with
| some ts => { s with update_dt := some (pyFloat ts) }
| none => { s with update_dt := some now }

/-- Correlation-id comparison `req_id == self.api_req_id` in
`Airzone.msg_response`: the inbound value comes from a dict lookup, so it
may be absent or non-string, in which case Python equality with the pending
string is `False`. -/
def req_id_matches (raw : Option JVal) (pending : String) : Bool :=
match raw with
| some (.jStr t) => t == pending
| _ => false

/-- Response handling `Airzone.msg_response` (`airzone.py`): set the
response event only on a matching correlation id (else log an error), then
— independently of the match — route by the remaining topic segment: a
get_status response is applied to the store and the freshness callback is
invoked with an empty payload. (Python indexes `topic[0]`, which raises on
an empty list; callers always pass a non-empty split, modelled by
`head?`.) This definition is the routing half of the method, hoisted so it
can be reasoned about separately from the correlation-id check. -/
def Airzone.msg_response_route (s1 : Airzone) (now : ℚ) (topic : List String) (data : Msg) : Airzone :=
if (if topic.head? = some AMT_RESPONSE then topic.tail else topic).head?
    = some (api_safe_str API_AZ_GET_STATUS) then
  (s1.api_az_get_status now data).update_callback now {}
else s1

/-- Response handling, first half (see `Airzone.msg_response_route` for the
doc comment of the whole method): the correlation-id check, then the
topic routing. -/
def Airzone.msg_response (s : Airzone) (now : ℚ) (topic : List String) (data : Msg) : Airzone :=
let s1 := if req_id_matches data.headers.req_id s.api_req_id then { s with api_resp := true } else s
s1.msg_response_route now topic data

/-- Availability handling `Airzone.msg_online` (`airzone.py`): the online
flag takes the payload's `online` value (default `False`; Python stores the
raw value, used only for its truthiness), and the online event mirrors
it. -/
def Airzone.msg_online (s : Airzone) (data : Msg) : Airzone :=
let onl := pyBool ((data.online).getD (.jBool false))
{ s with online := onl, online_event := onl }

/-- Event handling `Airzone.msg_events_status` (`airzone.py`): classify by
the declared device type in the body, look the device up by the formatted
composite key (`get_system` / `get_zone`), apply the body as a partial
update to the stored instance, and invoke the freshness callback with the
full payload; an unknown key or type changes nothing. (The Python method
first pops a leading `status` topic segment; the popped list is not used
afterwards, so that step has no effect on the modelled state.) -/
def Airzone.msg_events_status (s : Airzone) (now : ℚ) (topic : List String) (data : Msg) : Airzone :=
let body := data.body.getD {}
let key := pyStrOpt body.system_id ++ ":" ++ pyStrOpt body.device_id
if body.device_type = some (.jStr API_AZ_SYSTEM) then
  match alGet s.systems key with
  | some system =>
    let s1 := { s with systems := alSet s.systems key (system.update body.toDevMsg .PARTIAL) }
    s1.update_callback now data
  | none => s
else if body.device_type = some (.jStr API_AZ_ZONE) then
  match alGet s.zones key with
  | some zone =>
    let s1 := { s with zones := alSet s.zones key (zone.update body.toDevMsg .PARTIAL) }
    s1.update_callback now data
  | none => s
else s

/-- Freshness decision `Airzone._update_events` (`airzone.py`): the event
stream suffices exactly when the API is initialized, the gateway is online,
a last-update stamp exists, and its age is within the poll timeout. -/
def Airzone.update_events (s : Airzone) (now : ℚ) : Bool :=
if !s.api_init then false
else if !s.online then false
else match s.update_dt with
| none => false
| some dt => decide ((now - dt) ≤ s.poll_timeout)

/-- Environment of one polling attempt: either no message arrives before
the timeout budget elapses, or one response message is delivered while the
invoke is waiting. -/
inductive PollEnv where
| timeout
| response (topic : List String) (data : Msg)
deriving DecidableEq

/-- Outcome of one `update` cycle: returned normally without polling
(`noop`), polled successfully (`ok`), or raised the named error.
`runtimeError` is the `RuntimeError` that `asyncio.Lock.release` raises
when invoked on a lock that is not held. -/
inductive UpdateOutcome where
| noop
| ok
| airzoneOffline
| airzoneTimeout
| airzonePollError
| runtimeError (msg : String)
deriving DecidableEq

/-- Semantics of `asyncio.Lock.release`: returns the freed lock state, or
`none` for the `RuntimeError` raised when the lock is not held. -/
def lock_release (held : Bool) : Option Bool :=
if held then some false else none

/-- Polling step `Airzone._update_polling` combined with
`Airzone.cmd_az_get_status` / `Airzone.cmd_invoke` (`airzone.py`),
deterministic given the environment. Offline fails immediately with no
publish. Otherwise `cmd_invoke` acquires `api_lock` (modelled for the
uncontended single-caller case), clears the response event, records the
freshly generated correlation id `rid` (its wall-clock text format is
opaque to every claim), publishes the request, and waits.
If the budget elapses (or the delivered response leaves the waiter
blocked), the cancellation unwinds `cmd_invoke`, whose `async with
self.api_lock` releases the lock, and then the `except TimeoutError`
branch calls `self.api_lock.release()` a second time on the now-unheld
lock. If the delivered response sets the response event, the waiter wakes,
the lock scope exits normally and the store-initialization check decides
between success and `AirzonePollError`. -/
def Airzone.update_polling (s : Airzone) (now : ℚ) (rid : String) (env : PollEnv) : Airzone × UpdateOutcome :=
if !s.online then (s, .airzoneOffline)
else
  let s1 := { s with api_lock := true, api_resp := false, api_req_id := rid,
                     published := s.published ++ [s.mqtt_pfx ++ "/" ++ AMT_INVOKE] }
  match env with
  | .timeout =>
    let s2 := { s1 with api_lock := false }
    match lock_release s2.api_lock with
    | some h => ({ s2 with api_lock := h }, .airzoneTimeout)
    | none => (s2, .runtimeError "Lock is not acquired.")
  | .response topic data =>
    let s2 := s1.msg_response now topic data
    if s2.api_resp then
      let s3 := { s2 with api_lock := false }
      if !s3.api_init then (s3, .airzonePollError) else (s3, .ok)
    else
      let s4 := { s2 with api_lock := false }
      match lock_release s4.api_lock with
      | some h => ({ s4 with api_lock := h }, .airzoneTimeout)
      | none => (s4, .runtimeError "Lock is not acquired.")

/-- Cycle entry `Airzone.update` (`airzone.py`): if the event stream is
fresh enough, return without any action; otherwise run the polling step. -/
def Airzone.update_model (s : Airzone) (now : ℚ) (rid : String) (env : PollEnv) : Airzone × UpdateOutcome :=
if s.update_events now then (s, .noop)
else s.update_polling now rid env

/-- A full-snapshot response message carrying the given inventory. -/
def snapshotMsg (l : List DevMsg) : Msg :=
{ body := some { devices := l } }

/-- Overwriting a field from the same delta twice is the same as once. -/
theorem fieldMerge_self (raw : Option α) (conv : α → β) (cur : β) :
    fieldMerge raw conv (fieldMerge raw conv cur) = fieldMerge raw conv cur := by
cases raw <;> rfl

/-- The shared device merge is idempotent. -/
theorem device_update_idem (d : Device) (data : DevMsg) (ut : UpdateType) :
    (d.update data ut).update data ut = d.update data ut := by
simp [Device.update, fieldMerge_self]

/-- The zone merge is idempotent. -/
theorem zone_update_idem (z : Zone) (data : DevMsg) (ut : UpdateType) :
    (z.update data ut).update data ut = z.update data ut := by
simp [Zone.update, Device.update, fieldMerge_self]

/-- The system merge is idempotent. -/
theorem system_update_idem (s : System) (data : DevMsg) (ut : UpdateType) :
    (s.update data ut).update data ut = s.update data ut := by
simp [System.update, Device.update, fieldMerge_self]

/-- C4: for every device (System or Zone) and every partial delta, applying
the delta twice in succession yields a device state identical to applying
it once — each merge is a field-level overwrite, never accumulation. -/
theorem update_idempotent :
    (∀ (z : Zone) (data : DevMsg) (ut : UpdateType),
      (z.update data ut).update data ut = z.update data ut)
    ∧ (∀ (s : System) (data : DevMsg) (ut : UpdateType),
      (s.update data ut).update data ut = s.update data ut) :=
⟨zone_update_idem, system_update_idem⟩

/-- C9: a partial delta whose parameters carry only `power: true` changes
exactly the power field of a zone; every other field — the shared ones and
all other zone attributes (setpoint, mode, ...) — keeps its prior value. -/
theorem zone_power_only_delta (z : Zone) :
    z.update { parameters := { power := some (.jBool true) } } .PARTIAL
      = { z with power := some true } := by
simp [Zone.update, Device.update, fieldMerge, pyBool]

/-- Lookup distributes over dict concatenation. -/
theorem alGet_append (l1 l2 : List (String × α)) (k : String) :
    alGet (l1 ++ l2) k
      = (match alGet l1 k with | some v => some v | none => alGet l2 k) := by
induction l1 with
| nil => rfl
| cons hd tl ih =>
  obtain ⟨k1, v1⟩ := hd
  by_cases hk : k1 = k <;> simp [alGet, hk, ih]

/-- Lookup of a conditional entry at its own key yields the condition. -/
theorem alGet_optEntry_self (k : String) (v : Option DVal) :
    alGet (optEntry k v) k = v := by
cases v <;> simp [optEntry, alGet]

/-- Lookup of a conditional entry at another key finds nothing. -/
theorem alGet_optEntry_ne (k q : String) (v : Option DVal) (h : ¬ k = q) :
    alGet (optEntry k v) q = none := by
cases v <;> simp [optEntry, alGet, h]

/-- Eta rule for the option match produced by `alGet_append`. -/
theorem option_match_eta (o : Option α) :
    (match o with | some v => some v | none => none) = o := by
cases o <;> rfl

/-- Python `bool` of an optional stored bool is the test against `True`. -/
theorem pyBoolOpt_eq_decide (o : Option Bool) : pyBoolOpt o = decide (o = some true) := by
cases o with
| none => rfl
| some b => cases b <;> rfl

/-- C10: the outbound zone projection always carries the `active` flag,
equal to "`air_active` is `true` or `rad_active` is `true`" with an unset
flag counting as false, while the optional `air_active` / `rad_active`
entries themselves are present exactly when set. -/
theorem zone_data_active (z : Zone) :
    alGet z.data AZD_ACTIVE
        = some (.dBool (decide (z.air_active = some true ∨ z.rad_active = some true)))
    ∧ alGet z.data AZD_AIR_ACTIVE = z.air_active.map DVal.dBool
    ∧ alGet z.data AZD_RAD_ACTIVE = z.rad_active.map DVal.dBool := by
refine ⟨?_, ?_, ?_⟩ <;>
simp [Zone.data, Device.data, Zone.get_active, Zone.get_air_active, Zone.get_rad_active,
      Zone.get_humidity, Zone.get_mode, Zone.get_mode_available, Zone.get_power,
      Zone.get_setpoint, Zone.get_setpoint_max, Zone.get_setpoint_min, Zone.get_step,
      Zone.get_zone_work_temp, alGet_append, alGet_optEntry_self, alGet_optEntry_ne,
      alGet, option_match_eta, pyBoolOpt_eq_decide, Bool.decide_or,
      AZD_DEVICE_ID, AZD_ID, AZD_IS_CONNECTED, AZD_SYSTEM_ID, AZD_UNITS, AZD_ACTIVE,
      AZD_AIR_ACTIVE, AZD_HUMIDITY, AZD_MODE, AZD_MODE_AVAILABLE, AZD_NAME, AZD_POWER,
      AZD_RAD_ACTIVE, AZD_SETPOINT, AZD_SETPOINT_MAX, AZD_SETPOINT_MIN, AZD_STEP,
      AZD_ZONE_WORK_TEMP]

/-- The part of an `Airzone` state untouched by snapshot application and by
the freshness callback: the correlation slot, the lock, the online state,
the configuration and the publish log. Used to state frame lemmas
compactly. -/
structure SyncFrame where
  api_resp : Bool
  api_req_id : String
  api_lock : Bool
  online : Bool
  online_event : Bool
  poll_timeout : ℚ
  scan_interval : ℚ
  topic_airzone : String
  topic_interface : String
  published : List String
deriving DecidableEq

/-- Projection of an `Airzone` state onto its `SyncFrame` part. -/
def Airzone.syncFrame (s : Airzone) : SyncFrame :=
{ api_resp := s.api_resp, api_req_id := s.api_req_id, api_lock := s.api_lock,
  online := s.online, online_event := s.online_event, poll_timeout := s.poll_timeout,
  scan_interval := s.scan_interval, topic_airzone := s.topic_airzone,
  topic_interface := s.topic_interface, published := s.published }

/-- One snapshot-loop step touches only the two device maps. -/
theorem snapshot_step_syncFrame (pfx : String) (st : Airzone) (device : DevMsg) :
    (Airzone.snapshot_step pfx st device).syncFrame = st.syncFrame := by
unfold Airzone.snapshot_step
cases hdt : device.device_type with
| none => rfl
| some v =>
  cases v with
  | jStr t =>
    dsimp only
    by_cases h1 : t = API_AZ_SYSTEM
    · rw [if_pos h1]
      split <;> rfl
    · rw [if_neg h1]
      by_cases h2 : t = API_AZ_ZONE
      · rw [if_pos h2]
        split <;> rfl
      · rw [if_neg h2]
  | jBool b => rfl
  | jInt n => rfl
  | jRat q => rfl

/-- The whole snapshot loop touches only the two device maps. -/
theorem snapshot_fold_syncFrame (pfx : String) (devices : List DevMsg) (st : Airzone) :
    (devices.foldl (Airzone.snapshot_step pfx) st).syncFrame = st.syncFrame := by
induction devices generalizing st with
| nil => rfl
| cons d t ih => rw [List.foldl_cons, ih, snapshot_step_syncFrame]

/-- Snapshot application touches only the device maps, the init flags, the
raw-payload cache and the freshness stamp: the correlation state
(`api_resp`, `api_req_id`, `api_lock`), the online state, the configuration
and the publish log are untouched. -/
theorem api_az_get_status_syncFrame (s : Airzone) (now : ℚ) (data : Msg) :
    (s.api_az_get_status now data).syncFrame = s.syncFrame := by
have hfold := snapshot_fold_syncFrame (s.topic_interface ++ "/" ++ s.topic_airzone)
  (data.body.getD {}).devices { s with api_raw_status := some data }
unfold Airzone.api_az_get_status
set s2 := (data.body.getD {}).devices.foldl
  (Airzone.snapshot_step (s.topic_interface ++ "/" ++ s.topic_airzone))
  { s with api_raw_status := some data } with hs2
have h3 : (if !s2.api_init then { s2 with api_init := true, api_init_event := true } else s2).syncFrame
    = s2.syncFrame := by split <;> rfl
calc ({ (if !s2.api_init then { s2 with api_init := true, api_init_event := true } else s2) with
        update_dt := some now } : Airzone).syncFrame
    = (if !s2.api_init then { s2 with api_init := true, api_init_event := true } else s2).syncFrame := rfl
  _ = s2.syncFrame := h3
  _ = s.syncFrame := hfold

/-- The freshness callback touches only the freshness stamp. -/
theorem update_callback_syncFrame (s : Airzone) (now : ℚ) (data : Msg) :
    (s.update_callback now data).syncFrame = s.syncFrame := by
unfold Airzone.update_callback
cases data.headers.ts <;> rfl

/-- The routing half of response handling preserves the whole sync frame. -/
theorem msg_response_route_syncFrame (s1 : Airzone) (now : ℚ) (topic : List String) (data : Msg) :
    (s1.msg_response_route now topic data).syncFrame = s1.syncFrame := by
unfold Airzone.msg_response_route
by_cases hc : (if topic.head? = some AMT_RESPONSE then topic.tail else topic).head?
    = some (api_safe_str API_AZ_GET_STATUS)
· rw [if_pos hc, update_callback_syncFrame, api_az_get_status_syncFrame]
· rw [if_neg hc]

/-- Response handling never publishes, never changes the pending
correlation id, the lock, or the online flag. -/
theorem msg_response_frame (s : Airzone) (now : ℚ) (topic : List String) (data : Msg) :
    (s.msg_response now topic data).published = s.published
    ∧ (s.msg_response now topic data).api_req_id = s.api_req_id
    ∧ (s.msg_response now topic data).api_lock = s.api_lock
    ∧ (s.msg_response now topic data).online = s.online := by
unfold Airzone.msg_response
set s1 := if req_id_matches data.headers.req_id s.api_req_id = true then
  ({ s with api_resp := true } : Airzone) else s with hs1
have hroute := msg_response_route_syncFrame s1 now topic data
have hp : s1.published = s.published := by rw [hs1]; split <;> rfl
have hr : s1.api_req_id = s.api_req_id := by rw [hs1]; split <;> rfl
have hl : s1.api_lock = s.api_lock := by rw [hs1]; split <;> rfl
have ho : s1.online = s.online := by rw [hs1]; split <;> rfl
exact ⟨(congrArg SyncFrame.published hroute).trans hp,
       (congrArg SyncFrame.api_req_id hroute).trans hr,
       (congrArg SyncFrame.api_lock hroute).trans hl,
       (congrArg SyncFrame.online hroute).trans ho⟩

/-- On a mismatched correlation id the response handler also preserves the
response event (the waiter is not woken). -/
theorem msg_response_mismatch_api_resp (s : Airzone) (now : ℚ) (topic : List String) (data : Msg)
    (h : req_id_matches data.headers.req_id s.api_req_id = false) :
    (s.msg_response now topic data).api_resp = s.api_resp := by
unfold Airzone.msg_response
rw [h]
have hroute := msg_response_route_syncFrame s now topic data
simpa using congrArg SyncFrame.api_resp hroute

/-- The freshness decision of `_update_events`, spelled out: the event
stream is deemed sufficient exactly when the API is initialized, the
gateway is online and the last update is at most `poll_timeout` old. -/
theorem update_events_true_iff (s : Airzone) (now : ℚ) :
    s.update_events now = true
      ↔ (s.api_init = true ∧ s.online = true ∧
          ∃ dt, s.update_dt = some dt ∧ now - dt ≤ s.poll_timeout) := by
unfold Airzone.update_events
cases hai : s.api_init <;> cases ho : s.online <;> cases hdt : s.update_dt <;> simp

/-- Offline polling fails immediately and changes nothing. -/
theorem update_polling_offline (s : Airzone) (now : ℚ) (rid : String) (env : PollEnv)
    (h : s.online = false) :
    s.update_polling now rid env = (s, .airzoneOffline) := by
unfold Airzone.update_polling
simp [h]

/-- The polling step never reports the idle outcome. -/
theorem update_polling_ne_noop (s : Airzone) (now : ℚ) (rid : String) (env : PollEnv) :
    (s.update_polling now rid env).2 ≠ .noop := by
unfold Airzone.update_polling
by_cases ho : s.online
· simp only [ho, Bool.not_true, Bool.false_eq_true, if_false]
  cases env with
  | timeout => simp [lock_release]
  | response topic data =>
    dsimp only
    split
    · split <;> simp
    · simp [lock_release]
· simp [ho]

/-- When online, the polling step publishes exactly one request to the
invoke topic, in every environment. -/
theorem update_polling_published (s : Airzone) (now : ℚ) (rid : String) (env : PollEnv)
    (ho : s.online = true) :
    (s.update_polling now rid env).1.published
      = s.published ++ [s.mqtt_pfx ++ "/" ++ AMT_INVOKE] := by
unfold Airzone.update_polling
simp only [ho, Bool.not_true, Bool.false_eq_true, if_false]
cases env with
| timeout => simp [lock_release]
| response topic data =>
  have h := (msg_response_frame
    ({ s with api_lock := true, api_resp := false, api_req_id := rid,
              published := s.published ++ [s.mqtt_pfx ++ "/" ++ AMT_INVOKE] } : Airzone)
    now topic data).1
  rw [ho] at h
  dsimp only
  split
  · split <;> simpa using h
  · simpa [lock_release] using h

/-- The offline behaviour of the whole cycle: fail at once, unchanged. -/
theorem update_model_offline (s : Airzone) (now : ℚ) (rid : String) (env : PollEnv)
    (h : s.online = false) :
    s.update_model now rid env = (s, .airzoneOffline) := by
have he : s.update_events now = false := by
  unfold Airzone.update_events
  rw [h]
  simp
unfold Airzone.update_model
rw [he]
simp only [Bool.false_eq_true, if_false]
exact update_polling_offline s now rid env h

/-- C6: calling the update cycle while the online flag is false raises
`AirzoneOffline` immediately and leaves the state untouched: no request is
published and no other effect takes place, whatever the environment. -/
theorem update_cycle_offline (s : Airzone) (now : ℚ) (rid : String) (env : PollEnv)
    (h : s.online = false) :
    s.update_model now rid env = (s, .airzoneOffline) :=
update_model_offline s now rid env h

/-- Witness for C6 at the initial state, which is offline. -/
theorem update_cycle_offline_witness :
    ({} : Airzone).online = false
    ∧ Airzone.update_model {} 0 "req" .timeout = ({}, .airzoneOffline) :=
⟨rfl, update_cycle_offline {} 0 "req" .timeout rfl⟩

/-- C3 counterexample: the claim equates "is a no-op" with "issues no
poll" and asserts this happens exactly when the store is initialized, the
gateway online and the last update fresh. At the initial state (offline,
uninitialized) the cycle issues no poll — the publish log is unchanged —
yet the right-hand side of the claimed equivalence is false. -/
theorem update_cycle_no_poll_not_fresh :
    (Airzone.update_model {} 0 "req" .timeout).1.published = ({} : Airzone).published
    ∧ ¬(({} : Airzone).api_init = true ∧ ({} : Airzone).online = true ∧
        ∃ dt, ({} : Airzone).update_dt = some dt ∧ (0 : ℚ) - dt ≤ ({} : Airzone).poll_timeout) := by
constructor
· rfl
· rintro ⟨h1, -, -⟩
  exact absurd h1 (by decide)

/-- C3 (amended): the cycle returns idle, with no action at all, exactly
when the store is initialized, the gateway is online and the last update is
at most `poll_timeout` old; in every other case with the gateway online it
publishes exactly one poll request, and with the gateway offline it raises
`AirzoneOffline` without publishing anything. -/
theorem update_cycle_noop_iff_fresh (s : Airzone) (now : ℚ) (rid : String) (env : PollEnv) :
    (s.update_model now rid env = (s, .noop)
      ↔ s.api_init = true ∧ s.online = true ∧
          ∃ dt, s.update_dt = some dt ∧ now - dt ≤ s.poll_timeout)
    ∧ (s.online = true →
        ¬(s.api_init = true ∧ s.online = true ∧
          ∃ dt, s.update_dt = some dt ∧ now - dt ≤ s.poll_timeout) →
        (s.update_model now rid env).1.published
          = s.published ++ [s.mqtt_pfx ++ "/" ++ AMT_INVOKE])
    ∧ (s.online = false → s.update_model now rid env = (s, .airzoneOffline)) := by
refine ⟨⟨?_, ?_⟩, ?_, ?_⟩
· intro h
  cases hb : s.update_events now
  · exfalso
    have h2 := congrArg Prod.snd h
    unfold Airzone.update_model at h2
    rw [hb] at h2
    simp only [Bool.false_eq_true, if_false] at h2
    exact update_polling_ne_noop s now rid env h2
  · exact (update_events_true_iff s now).mp hb
· intro hr
  have hb : s.update_events now = true := (update_events_true_iff s now).mpr hr
  unfold Airzone.update_model
  rw [hb]
  simp
· intro ho hnot
  have hb : s.update_events now = false := by
    cases hb : s.update_events now
    · rfl
    · exact absurd ((update_events_true_iff s now).mp hb) hnot
  unfold Airzone.update_model
  rw [hb]
  simp only [Bool.false_eq_true, if_false]
  exact update_polling_published s now rid env ho
· exact update_model_offline s now rid env

/-- Witness for C3 at the two instances named by the claim: with
`lastUpdate = now - 1` the cycle is a no-op, and with
`lastUpdate = now - poll_timeout - 1` (timeout 900) it issues the poll. -/
theorem update_cycle_noop_iff_fresh_witness :
    (Airzone.update_model { api_init := true, online := true, update_dt := some 999 } 1000 "r" .timeout
      = ({ api_init := true, online := true, update_dt := some 999 }, .noop))
    ∧ (Airzone.update_model { api_init := true, online := true, update_dt := some 99 } 1000 "r" .timeout).1.published
      = [({ api_init := true, online := true, update_dt := some 99 } : Airzone).mqtt_pfx ++ "/" ++ AMT_INVOKE] := by
constructor
· exact (update_cycle_noop_iff_fresh
    ({ api_init := true, online := true, update_dt := some 999 } : Airzone)
    1000 "r" .timeout).1.mpr ⟨rfl, rfl, 999, rfl, by norm_num⟩
· have h := (update_cycle_noop_iff_fresh
    ({ api_init := true, online := true, update_dt := some 99 } : Airzone)
    1000 "r" .timeout).2.1 rfl (by
      rintro ⟨-, -, dt, hdt, hle⟩
      cases hdt
      norm_num at hle)
  simpa using h

/-- C2: the code violates the claimed timeout contract (the spec itself
flags this fragility in §9). At a concrete online state whose poll times
out, the `except TimeoutError` branch of `_update_polling` calls
`api_lock.release()` after the cancelled `async with api_lock` in
`cmd_invoke` has already released the lock, so the cycle surfaces the
`RuntimeError` of `asyncio.Lock.release` instead of `AirzoneTimeout`, and
the pending correlation slot still holds the timed-out id instead of being
cleared. -/
theorem invoke_timeout_lock_bug :
    (Airzone.update_model { online := true } 0 "req-1" .timeout).2
        = .runtimeError "Lock is not acquired."
    ∧ (Airzone.update_model { online := true } 0 "req-1" .timeout).1.api_req_id = "req-1"
    ∧ (Airzone.update_model { online := true } 0 "req-1" .timeout).1.api_lock = false :=
⟨rfl, rfl, rfl⟩

/-- C1 (amended): an inbound response whose correlation id does not match
the pending one does not unblock the pending waiter (the response event is
untouched) and does not change the pending-correlation state; it is,
however, not fully discarded — the body is still routed by topic, so the
device store may still change (see the counterexample theorem for C1). -/
theorem msg_response_mismatch_keeps_pending (s : Airzone) (now : ℚ) (topic : List String) (data : Msg)
    (h : req_id_matches data.headers.req_id s.api_req_id = false) :
    (s.msg_response now topic data).api_resp = s.api_resp
    ∧ (s.msg_response now topic data).api_req_id = s.api_req_id :=
⟨msg_response_mismatch_api_resp s now topic data h,
 (msg_response_frame s now topic data).2.1⟩

/-- A mismatched get_status response used by the C1 theorems: the pending
id is `"pending"`, the response carries `"other"` and one zone entry. -/
def c1_state : Airzone :=
{ api_req_id := "pending" }

/-- The mismatched response payload used by the C1 theorems. -/
def c1_msg : Msg :=
{ headers := { req_id := some (.jStr "other") },
  body := some { devices := [{ device_id := some (.jStr "2"),
                               device_type := some (.jStr API_AZ_ZONE),
                               system_id := some (.jStr "1") }] } }

/-- Witness for C1 at the mismatched message `c1_msg`. -/
theorem msg_response_mismatch_keeps_pending_witness :
    req_id_matches c1_msg.headers.req_id c1_state.api_req_id = false
    ∧ ((c1_state.msg_response 0 [AMT_RESPONSE, "az_get_status"] c1_msg).api_resp
          = c1_state.api_resp
        ∧ (c1_state.msg_response 0 [AMT_RESPONSE, "az_get_status"] c1_msg).api_req_id
          = c1_state.api_req_id) :=
⟨rfl, msg_response_mismatch_keeps_pending c1_state 0 [AMT_RESPONSE, "az_get_status"] c1_msg rfl⟩

/-- C1 counterexample: the claim also asserts that a mismatched response is
discarded, causing no change to the device store. It is not: the handler
still routes the payload by topic, and this mismatched get_status response
creates a zone in the store. -/
theorem msg_response_mismatch_not_discarded :
    req_id_matches c1_msg.headers.req_id c1_state.api_req_id = false
    ∧ (c1_state.msg_response 0 [AMT_RESPONSE, "az_get_status"] c1_msg).zones
        ≠ c1_state.zones := by
constructor
· rfl
· decide

/-- An existing binding survives dict concatenation on the left. -/
theorem alGet_append_left (l1 l2 : List (String × α)) (k : String) (v : α)
    (h : alGet l1 k = some v) : alGet (l1 ++ l2) k = some v := by
rw [alGet_append, h]

/-- A lookup misses exactly when the key is absent from the dict. -/
theorem alGet_eq_none (l : List (String × α)) (k : String) :
    alGet l k = none ↔ k ∉ l.map Prod.fst := by
induction l with
| nil => simp [alGet]
| cons hd tl ih =>
  obtain ⟨k1, v1⟩ := hd
  by_cases hk : k1 = k
  · subst hk
    simp [alGet]
  · have hk2 : ¬ k = k1 := fun h => hk h.symm
    simp [alGet, hk, hk2, ih]

/-- Replacing a value in a dict does not change its key list. -/
theorem alSet_map_fst (l : List (String × α)) (k : String) (x : α) :
    (alSet l k x).map Prod.fst = l.map Prod.fst := by
induction l with
| nil => rfl
| cons hd tl ih =>
  obtain ⟨k1, v1⟩ := hd
  by_cases hk : k1 = k <;> simp [alSet, hk, ih]

/-- One snapshot-loop step keeps every binding already present in the zone
map: it inserts only at absent keys, never overwriting. -/
theorem snapshot_step_zones_mono (pfx : String) (st : Airzone) (device : DevMsg)
    (k : String) (z : Zone) (h : alGet st.zones k = some z) :
    alGet (Airzone.snapshot_step pfx st device).zones k = some z := by
unfold Airzone.snapshot_step
cases hdt : device.device_type with
| none => exact h
| some v =>
  cases v with
  | jStr t =>
    dsimp only
    by_cases h1 : t = API_AZ_SYSTEM
    · rw [if_pos h1]
      split
      · exact h
      · exact h
    · rw [if_neg h1]
      by_cases h2 : t = API_AZ_ZONE
      · rw [if_pos h2]
        split
        · exact alGet_append_left _ _ _ _ h
        · exact h
      · rw [if_neg h2]
        exact h
  | jBool b => exact h
  | jInt n => exact h
  | jRat q => exact h

/-- One snapshot-loop step keeps every binding already present in the
system map. -/
theorem snapshot_step_systems_mono (pfx : String) (st : Airzone) (device : DevMsg)
    (k : String) (sy : System) (h : alGet st.systems k = some sy) :
    alGet (Airzone.snapshot_step pfx st device).systems k = some sy := by
unfold Airzone.snapshot_step
cases hdt : device.device_type with
| none => exact h
| some v =>
  cases v with
  | jStr t =>
    dsimp only
    by_cases h1 : t = API_AZ_SYSTEM
    · rw [if_pos h1]
      split
      · exact alGet_append_left _ _ _ _ h
      · exact h
    · rw [if_neg h1]
      by_cases h2 : t = API_AZ_ZONE
      · rw [if_pos h2]
        split
        · exact h
        · exact h
      · rw [if_neg h2]
        exact h
  | jBool b => exact h
  | jInt n => exact h
  | jRat q => exact h

/-- The whole snapshot loop keeps every existing zone binding. -/
theorem snapshot_fold_zones_mono (pfx : String) (devices : List DevMsg) (st : Airzone)
    (k : String) (z : Zone) (h : alGet st.zones k = some z) :
    alGet (devices.foldl (Airzone.snapshot_step pfx) st).zones k = some z := by
induction devices generalizing st with
| nil => exact h
| cons d t ih =>
  rw [List.foldl_cons]
  exact ih _ (snapshot_step_zones_mono pfx st d k z h)

/-- The whole snapshot loop keeps every existing system binding. -/
theorem snapshot_fold_systems_mono (pfx : String) (devices : List DevMsg) (st : Airzone)
    (k : String) (sy : System) (h : alGet st.systems k = some sy) :
    alGet (devices.foldl (Airzone.snapshot_step pfx) st).systems k = some sy := by
induction devices generalizing st with
| nil => exact h
| cons d t ih =>
  rw [List.foldl_cons]
  exact ih _ (snapshot_step_systems_mono pfx st d k sy h)

/-- The zone map of a snapshot application is the zone map of its loop. -/
theorem api_az_get_status_zones (s : Airzone) (now : ℚ) (data : Msg) :
    (s.api_az_get_status now data).zones
      = ((data.body.getD {}).devices.foldl
          (Airzone.snapshot_step (s.topic_interface ++ "/" ++ s.topic_airzone))
          { s with api_raw_status := some data }).zones := by
unfold Airzone.api_az_get_status
dsimp only
split <;> rfl

/-- The system map of a snapshot application is that of its loop. -/
theorem api_az_get_status_systems (s : Airzone) (now : ℚ) (data : Msg) :
    (s.api_az_get_status now data).systems
      = ((data.body.getD {}).devices.foldl
          (Airzone.snapshot_step (s.topic_interface ++ "/" ++ s.topic_airzone))
          { s with api_raw_status := some data }).systems := by
unfold Airzone.api_az_get_status
dsimp only
split <;> rfl

/-- A key appended at an absent slot keeps the key list duplicate-free. -/
theorem nodup_append_absent (l : List (String × α)) (k : String) (v : α)
    (hn : (l.map Prod.fst).Nodup) (ha : alGet l k = none) :
    (((l ++ [(k, v)]).map Prod.fst)).Nodup := by
rw [List.map_append]
simp only [List.map_cons, List.map_nil]
rw [List.nodup_append]
refine ⟨hn, List.nodup_singleton k, ?_⟩
intro a hal hak
simp only [List.mem_singleton] at hak
subst hak
exact (alGet_eq_none l a).mp ha hal

/-- One snapshot-loop step keeps both key lists duplicate-free. -/
theorem snapshot_step_nodup (pfx : String) (st : Airzone) (device : DevMsg)
    (hs : (st.systems.map Prod.fst).Nodup) (hz : (st.zones.map Prod.fst).Nodup) :
    ((Airzone.snapshot_step pfx st device).systems.map Prod.fst).Nodup
    ∧ ((Airzone.snapshot_step pfx st device).zones.map Prod.fst).Nodup := by
unfold Airzone.snapshot_step
cases hdt : device.device_type with
| none => exact ⟨hs, hz⟩
| some v =>
  cases v with
  | jStr t =>
    dsimp only
    by_cases h1 : t = API_AZ_SYSTEM
    · rw [if_pos h1]
      split
      · rename_i hnone
        rw [Option.isNone_iff_eq_none] at hnone
        exact ⟨nodup_append_absent _ _ _ hs hnone, hz⟩
      · exact ⟨hs, hz⟩
    · rw [if_neg h1]
      by_cases h2 : t = API_AZ_ZONE
      · rw [if_pos h2]
        split
        · rename_i hnone
          rw [Option.isNone_iff_eq_none] at hnone
          exact ⟨hs, nodup_append_absent _ _ _ hz hnone⟩
        · exact ⟨hs, hz⟩
      · rw [if_neg h2]
        exact ⟨hs, hz⟩
  | jBool b => exact ⟨hs, hz⟩
  | jInt n => exact ⟨hs, hz⟩
  | jRat q => exact ⟨hs, hz⟩

/-- The whole snapshot loop keeps both key lists duplicate-free. -/
theorem snapshot_fold_nodup (pfx : String) (devices : List DevMsg) (st : Airzone)
    (hs : (st.systems.map Prod.fst).Nodup) (hz : (st.zones.map Prod.fst).Nodup) :
    ((devices.foldl (Airzone.snapshot_step pfx) st).systems.map Prod.fst).Nodup
    ∧ ((devices.foldl (Airzone.snapshot_step pfx) st).zones.map Prod.fst).Nodup := by
induction devices generalizing st with
| nil => exact ⟨hs, hz⟩
| cons d t ih =>
  rw [List.foldl_cons]
  obtain ⟨hs1, hz1⟩ := snapshot_step_nodup pfx st d hs hz
  exact ih _ hs1 hz1

/-- A matching get_status response sets the response event, then applies
the snapshot and the empty-payload freshness callback. -/
theorem msg_response_matched_get_status (u : Airzone) (now : ℚ) (topic : List String) (data : Msg)
    (hmatch : req_id_matches data.headers.req_id u.api_req_id = true)
    (htopic : (if topic.head? = some AMT_RESPONSE then topic.tail else topic).head?
        = some (api_safe_str API_AZ_GET_STATUS)) :
    u.msg_response now topic data
      = (({ u with api_resp := true } : Airzone).api_az_get_status now data).update_callback now {} := by
unfold Airzone.msg_response Airzone.msg_response_route
rw [if_pos hmatch, if_pos htopic]

/-- A snapshot application always leaves the store marked initialized. -/
theorem api_az_get_status_api_init (s : Airzone) (now : ℚ) (data : Msg) :
    (s.api_az_get_status now data).api_init = true := by
unfold Airzone.api_az_get_status
dsimp only
split
· rfl
· rename_i hcond
  simpa using hcond

/-- The freshness callback on the literal empty payload stamps the current
time. -/
theorem update_callback_empty (u : Airzone) (now : ℚ) :
    u.update_callback now {} = { u with update_dt := some now } := rfl

/-- C7 (amended): every successful poll resets the freshness timestamp to
the current time — the response's headers timestamp is ignored even when
present, because the poll path invokes the freshness callback with an
empty payload (`update_callback({})` in `msg_response`). -/
theorem poll_success_sets_now (s : Airzone) (now : ℚ) (rid : String) (topic : List String) (data : Msg)
    (ho : s.online = true)
    (hstale : ¬(s.api_init = true ∧ s.online = true ∧
        ∃ dt, s.update_dt = some dt ∧ now - dt ≤ s.poll_timeout))
    (hmatch : req_id_matches data.headers.req_id rid = true)
    (htopic : (if topic.head? = some AMT_RESPONSE then topic.tail else topic).head?
        = some (api_safe_str API_AZ_GET_STATUS)) :
    (s.update_model now rid (.response topic data)).1.update_dt = some now
    ∧ (s.update_model now rid (.response topic data)).2 = .ok := by
have hev : s.update_events now = false := by
  cases hb : s.update_events now
  · rfl
  · exact absurd ((update_events_true_iff s now).mp hb) hstale
unfold Airzone.update_model
rw [hev]
simp only [Bool.false_eq_true, if_false]
simp only [Airzone.update_polling, ho, Bool.not_true, Bool.false_eq_true, if_false]
set s1 : Airzone := { s with api_resp := false, api_req_id := rid, api_lock := true, online := true, published := s.published ++ [s.mqtt_pfx ++ "/" ++ AMT_INVOKE] } with hs1
have hm1 : req_id_matches data.headers.req_id s1.api_req_id = true := hmatch
have hresp := msg_response_matched_get_status s1 now topic data hm1 htopic
rw [hresp]
have hares : ((({ s1 with api_resp := true } : Airzone).api_az_get_status now data).update_callback now {}).api_resp
    = true := by
  have hf := api_az_get_status_syncFrame ({ s1 with api_resp := true } : Airzone) now data
  simpa using congrArg SyncFrame.api_resp hf
have hinit : ((({ s1 with api_resp := true } : Airzone).api_az_get_status now data).update_callback now {}).api_init
    = true :=
  api_az_get_status_api_init ({ s1 with api_resp := true } : Airzone) now data
rw [if_pos hares]
rw [if_neg (by simp [hinit])]
exact ⟨rfl, rfl⟩

/-- A get_status response carrying a headers timestamp, used by the C7
theorems. -/
def c7_msg : Msg :=
{ headers := { req_id := some (.jStr "r"), ts := some (.jInt 123) },
  body := some { devices := [] } }

/-- Witness for C7: a successful poll at time 5 stamps time 5. -/
theorem poll_success_sets_now_witness :
    (Airzone.update_model { online := true } 5 "r"
        (.response [AMT_RESPONSE, "az_get_status"] c7_msg)).1.update_dt = some 5
    ∧ (Airzone.update_model { online := true } 5 "r"
        (.response [AMT_RESPONSE, "az_get_status"] c7_msg)).2 = .ok := by
refine poll_success_sets_now ({ online := true } : Airzone) 5 "r"
  [AMT_RESPONSE, "az_get_status"] c7_msg rfl ?_ rfl rfl
rintro ⟨h1, -, -⟩
exact absurd h1 (by decide)

/-- C7 counterexample: the claim says the timestamp carried in the
response headers (here 123) is used when present; the code stamps the
current time (1000) instead, because the poll path passes an empty payload
to the freshness callback. -/
theorem poll_ignores_header_ts :
    c7_msg.headers.ts = some (.jInt 123)
    ∧ (Airzone.update_model { online := true } 1000 "r"
        (.response [AMT_RESPONSE, "az_get_status"] c7_msg)).1.update_dt = some 1000
    ∧ (1000 : ℚ) ≠ pyFloat (.jInt 123) := by
refine ⟨rfl, rfl, by norm_num [pyFloat]⟩

/-- The zone a snapshot entry constructs, exactly as the loop in
`api_az_get_status` builds it: fresh `Zone`, full update from the entry,
topic assignment. -/
def snapZone (s : Airzone) (e : DevMsg) : Zone :=
((Zone.init e).update e .FULL).set_mqtt_topic (s.topic_interface ++ "/" ++ s.topic_airzone)

/-- The system a snapshot entry constructs, as the loop builds it. -/
def snapSystem (s : Airzone) (e : DevMsg) : System :=
((System.init e).update e .FULL).set_mqtt_topic (s.topic_interface ++ "/" ++ s.topic_airzone)

/-- A snapshot entry with a type tag matching neither variant changes
nothing. -/
theorem snapshot_step_unknown (pfx : String) (st : Airzone) (device : DevMsg)
    (h1 : device.device_type ≠ some (.jStr API_AZ_SYSTEM))
    (h2 : device.device_type ≠ some (.jStr API_AZ_ZONE)) :
    Airzone.snapshot_step pfx st device = st := by
unfold Airzone.snapshot_step
cases hdt : device.device_type with
| none => rfl
| some v =>
  cases v with
  | jStr t =>
    dsimp only
    have hts : ¬ t = API_AZ_SYSTEM := fun hteq => h1 (by rw [hdt, hteq])
    have htz : ¬ t = API_AZ_ZONE := fun hteq => h2 (by rw [hdt, hteq])
    rw [if_neg hts, if_neg htz]
  | jBool b => rfl
  | jInt n => rfl
  | jRat q => rfl

/-- C5 (amended): snapshot application classifies every entry by its
declared type; an entry whose composite key is new is stored as the
freshly constructed variant with the entry applied to it; an entry whose
key is already stored leaves the existing instance exactly as it was — the
entry is applied only to the fresh, discarded object, never to the stored
one; entries with an unknown declared type are skipped and create no
device. -/
theorem snapshot_classify (s : Airzone) (now : ℚ) (data : Msg) (e : DevMsg) :
    (∀ k z, alGet s.zones k = some z →
        alGet (s.api_az_get_status now data).zones k = some z)
    ∧ (∀ k sy, alGet s.systems k = some sy →
        alGet (s.api_az_get_status now data).systems k = some sy)
    ∧ (e.device_type = some (.jStr API_AZ_ZONE) →
        alGet s.zones (snapZone s e).toDevice.get_id = none →
        alGet (s.api_az_get_status now (snapshotMsg [e])).zones
            (snapZone s e).toDevice.get_id = some (snapZone s e))
    ∧ (e.device_type = some (.jStr API_AZ_SYSTEM) →
        alGet s.systems (snapSystem s e).toDevice.get_id = none →
        alGet (s.api_az_get_status now (snapshotMsg [e])).systems
            (snapSystem s e).toDevice.get_id = some (snapSystem s e))
    ∧ (e.device_type ≠ some (.jStr API_AZ_SYSTEM) →
        e.device_type ≠ some (.jStr API_AZ_ZONE) →
        (s.api_az_get_status now (snapshotMsg [e])).systems = s.systems
        ∧ (s.api_az_get_status now (snapshotMsg [e])).zones = s.zones) := by
have hd : ((snapshotMsg [e]).body.getD {}).devices = [e] := rfl
refine ⟨?_, ?_, ?_, ?_, ?_⟩
· intro k z h
  rw [api_az_get_status_zones]
  exact snapshot_fold_zones_mono _ _ _ _ _ h
· intro k sy h
  rw [api_az_get_status_systems]
  exact snapshot_fold_systems_mono _ _ _ _ _ h
· intro hdt hnone
  rw [api_az_get_status_zones, hd, List.foldl_cons, List.foldl_nil]
  unfold Airzone.snapshot_step
  rw [hdt]
  dsimp only
  rw [if_neg (by decide), if_pos rfl]
  rw [if_pos (by simpa [Option.isNone_iff_eq_none] using hnone)]
  rw [alGet_append]
  rw [show alGet ({ s with api_raw_status := some (snapshotMsg [e]) } : Airzone).zones
      (snapZone s e).toDevice.get_id = none from hnone]
  simp [alGet, snapZone]
· intro hdt hnone
  rw [api_az_get_status_systems, hd, List.foldl_cons, List.foldl_nil]
  unfold Airzone.snapshot_step
  rw [hdt]
  dsimp only
  rw [if_pos rfl]
  rw [if_pos (by simpa [Option.isNone_iff_eq_none] using hnone)]
  rw [alGet_append]
  rw [show alGet ({ s with api_raw_status := some (snapshotMsg [e]) } : Airzone).systems
      (snapSystem s e).toDevice.get_id = none from hnone]
  simp [alGet, snapSystem]
· intro h1 h2
  have hstep := snapshot_step_unknown
    (s.topic_interface ++ "/" ++ s.topic_airzone)
    ({ s with api_raw_status := some (snapshotMsg [e]) } : Airzone) e h1 h2
  constructor
  · rw [api_az_get_status_systems, hd, List.foldl_cons, List.foldl_nil, hstep]
  · rw [api_az_get_status_zones, hd, List.foldl_cons, List.foldl_nil, hstep]

/-- A zone snapshot entry `(system 1, device 2)` used by the C5 witness. -/
def sampleZoneEntry : DevMsg :=
{ device_id := some (.jStr "2"), device_type := some (.jStr API_AZ_ZONE),
  system_id := some (.jStr "1") }

/-- Witness for C5: applying a one-entry snapshot to the empty store
creates the constructed zone under its composite key. -/
theorem snapshot_classify_witness :
    alGet (Airzone.api_az_get_status {} 0 (snapshotMsg [sampleZoneEntry])).zones
        (snapZone {} sampleZoneEntry).toDevice.get_id = some (snapZone {} sampleZoneEntry) :=
(snapshot_classify {} 0 (snapshotMsg [sampleZoneEntry]) sampleZoneEntry).2.2.1 rfl rfl

/-- A zone already stored under key `1:2` with power off, for the C5
counterexample. -/
def c5_zone0 : Zone :=
{ Zone.init { device_id := some (.jStr "2"), system_id := some (.jStr "1") } with
  power := some false }

/-- A store already holding `c5_zone0`. -/
def c5_state : Airzone :=
{ zones := [("1:2", c5_zone0)] }

/-- A snapshot entry for the already-stored key `1:2` that switches power
on. -/
def c5_entry : DevMsg :=
{ device_id := some (.jStr "2"), device_type := some (.jStr API_AZ_ZONE),
  system_id := some (.jStr "1"),
  parameters := { power := some (.jBool true) } }

/-- C5 counterexample: the claim says a snapshot entry whose key is
already stored is applied to the existing instance as an update. It is
not: after applying a snapshot whose entry turns power on for the stored
key `1:2`, the stored zone still has power off — the update went to the
freshly constructed object, which was discarded. -/
theorem snapshot_existing_not_updated :
    alGet (Airzone.api_az_get_status c5_state 0 (snapshotMsg [c5_entry])).zones "1:2"
        = some c5_zone0
    ∧ c5_zone0.power = some false
    ∧ (c5_zone0.update c5_entry .FULL).power = some true
    ∧ alGet (Airzone.api_az_get_status c5_state 0 (snapshotMsg [c5_entry])).zones "1:2"
        ≠ some (c5_zone0.update c5_entry .FULL) := by
refine ⟨by decide, rfl, rfl, by decide⟩

/-- A system snapshot entry `(system 1, device 1)` used by the C8
theorems. -/
def sampleSystemEntry : DevMsg :=
{ device_id := some (.jStr "1"), device_type := some (.jStr API_AZ_SYSTEM),
  system_id := some (.jStr "1") }

/-- A zone snapshot entry with the same `(system 1, device 1)` identity as
`sampleSystemEntry`, used by the C8 counterexample. -/
def collidingZoneEntry : DevMsg :=
{ device_id := some (.jStr "1"), device_type := some (.jStr API_AZ_ZONE),
  system_id := some (.jStr "1") }

/-- C8 counterexample: systems and zones live in separate maps, so a
system entry and a zone entry with the same `(system_id, device_id)` pair
are both stored, and the two stored devices share the composite key
`1:1` — the claimed store-wide uniqueness fails. -/
theorem store_key_collision :
    (Airzone.api_az_get_status {} 0
        (snapshotMsg [sampleSystemEntry, collidingZoneEntry])).systems.map Prod.fst = ["1:1"]
    ∧ (Airzone.api_az_get_status {} 0
        (snapshotMsg [sampleSystemEntry, collidingZoneEntry])).zones.map Prod.fst = ["1:1"]
    ∧ ¬((Airzone.api_az_get_status {} 0
          (snapshotMsg [sampleSystemEntry, collidingZoneEntry])).systems.map Prod.fst
        ++ (Airzone.api_az_get_status {} 0
          (snapshotMsg [sampleSystemEntry, collidingZoneEntry])).zones.map Prod.fst).Nodup := by
refine ⟨by decide, by decide, by decide⟩

/-- The freshness callback keeps the system map. -/
theorem update_callback_systems (u : Airzone) (now : ℚ) (data : Msg) :
    (u.update_callback now data).systems = u.systems := by
unfold Airzone.update_callback
cases data.headers.ts <;> rfl

/-- The freshness callback keeps the zone map. -/
theorem update_callback_zones (u : Airzone) (now : ℚ) (data : Msg) :
    (u.update_callback now data).zones = u.zones := by
unfold Airzone.update_callback
cases data.headers.ts <;> rfl

/-- Partial-event handling never changes the key list of either map: it
replaces the value stored at an existing key in place. -/
theorem msg_events_status_keys (s : Airzone) (now : ℚ) (topic : List String) (d : Msg) :
    (s.msg_events_status now topic d).systems.map Prod.fst = s.systems.map Prod.fst
    ∧ (s.msg_events_status now topic d).zones.map Prod.fst = s.zones.map Prod.fst := by
unfold Airzone.msg_events_status
dsimp only
split
· split
  · constructor
    · rw [update_callback_systems]
      exact alSet_map_fst _ _ _
    · rw [update_callback_zones]
  · exact ⟨rfl, rfl⟩
· split
  · split
    · constructor
      · rw [update_callback_systems]
      · rw [update_callback_zones]
        exact alSet_map_fst _ _ _
    · exact ⟨rfl, rfl⟩
  · exact ⟨rfl, rfl⟩

/-- C8 (amended): within each of the two device maps, no two stored
devices share the composite key — snapshot application preserves
duplicate-freedom of each key list, and partial-event handling never
changes a key; moreover a device's identity fields are immutable under
every update, so a stored device's key never changes. (A System and a
Zone, stored in separate maps, may however share the pair: see the
counterexample.) -/
theorem store_keys_unique_per_map (s : Airzone) (now : ℚ) (data : Msg)
    (hs : (s.systems.map Prod.fst).Nodup) (hz : (s.zones.map Prod.fst).Nodup) :
    ((s.api_az_get_status now data).systems.map Prod.fst).Nodup
    ∧ ((s.api_az_get_status now data).zones.map Prod.fst).Nodup
    ∧ (∀ (topic : List String) (d : Msg),
        (s.msg_events_status now topic d).systems.map Prod.fst = s.systems.map Prod.fst
        ∧ (s.msg_events_status now topic d).zones.map Prod.fst = s.zones.map Prod.fst)
    ∧ (∀ (z : Zone) (dm : DevMsg) (ut : UpdateType),
        (z.update dm ut).system_id = z.system_id ∧ (z.update dm ut).device_id = z.device_id)
    ∧ (∀ (sy : System) (dm : DevMsg) (ut : UpdateType),
        (sy.update dm ut).system_id = sy.system_id ∧ (sy.update dm ut).device_id = sy.device_id) := by
refine ⟨?_, ?_, ?_, ?_, ?_⟩
· rw [api_az_get_status_systems]
  exact (snapshot_fold_nodup (s.topic_interface ++ "/" ++ s.topic_airzone)
    (data.body.getD {}).devices ({ s with api_raw_status := some data } : Airzone) hs hz).1
· rw [api_az_get_status_zones]
  exact (snapshot_fold_nodup (s.topic_interface ++ "/" ++ s.topic_airzone)
    (data.body.getD {}).devices ({ s with api_raw_status := some data } : Airzone) hs hz).2
· intro topic d
  exact msg_events_status_keys s now topic d
· intro z dm ut
  exact ⟨rfl, rfl⟩
· intro sy dm ut
  exact ⟨rfl, rfl⟩

/-- Witness for C8 at a one-entry snapshot on the empty store. -/
theorem store_keys_unique_per_map_witness :
    ((Airzone.api_az_get_status {} 0 (snapshotMsg [sampleSystemEntry])).systems.map Prod.fst).Nodup
    ∧ ((Airzone.api_az_get_status {} 0 (snapshotMsg [sampleSystemEntry])).zones.map Prod.fst).Nodup :=
⟨(store_keys_unique_per_map {} 0 (snapshotMsg [sampleSystemEntry]) (by decide) (by decide)).1,
 (store_keys_unique_per_map {} 0 (snapshotMsg [sampleSystemEntry]) (by decide) (by decide)).2.1⟩

end AirzoneMqtt
